import Mathlib

/-!
Shallow embedding of the core of the Gemini-pc-control repository
(`src/gemini_pc_control`), covering:

* `models/command.py` — the `Command` data model and its lifecycle
  transition `Command.update_status`;
* `system/command_executor.py` — the text parser (`CommandParser`) and
  the executor (`CommandExecutor`), in particular the composite
  fail-fast / fail-soft loop `_execute_composite_command`;
* `ai/context_manager.py` — `ContextWindow.add_entry` pruning and the
  TTL-evicting system-state reads.

Modelling conventions:

* Python `str` is modelled as Lean `String`; parser internals work on
  `List Char` (the string's character data).  `str.strip()` is modelled
  for ASCII whitespace.
* Python `float` values and timestamps (`time.time()`, `datetime.now()`)
  are modelled as `ℚ`; a decimal literal denotes its exact rational
  value.
* Python `Dict[str, Any]` payloads (`Command.data`, function-call
  argument maps) are modelled as records of `Option`-typed fields, one
  field per key the code ever reads; `dict.get(k, d)` becomes
  `Option.getD`.
* Effects on the outside world (pyautogui raising, subprocess exit
  status, `print` failing) are abstracted into a boolean environment:
  `true` means the host primitive ran without fault.  Generated UUIDs
  and creation timestamps are irrelevant to every claim and are fixed
  to `""` / `0`.
-/

set_option autoImplicit false

namespace GeminiPcControl

/-! ### `models/command.py`: enums and payloads -/

/-- `CommandType` from `models/command.py`. -/
inductive CommandType where
  | MOUSE_MOVE
  | MOUSE_CLICK
  | KEYBOARD_TYPE
  | KEYBOARD_HOTKEY
  | START_PROCESS
  | PRINT_OUTPUT
  | COMPOSITE
  | UNKNOWN
  deriving DecidableEq, Repr

/-- `CommandStatus` from `models/command.py`. -/
inductive CommandStatus where
  | PENDING
  | EXECUTING
  | COMPLETED
  | FAILED
  | CANCELED
  deriving DecidableEq, Repr

/-- The `Command.data` dictionary.  The executor reads exactly the keys
`x`, `y`, `duration`, `button`, `clicks`, `text`, `keys`, `command`
(each with a default), so the dict is modelled as a record of optional
fields, `none` meaning "key absent". -/
structure CommandData where
  x : Option Int := none
  y : Option Int := none
  duration : Option ℚ := none
  button : Option String := none
  clicks : Option Int := none
  text : Option String := none
  keys : Option (List String) := none
  command : Option String := none
  deriving DecidableEq, Repr

/-- The scalar fields of `Command` (everything except `sub_commands`).
`id` is modelled but never inspected by any claim (UUIDs are fixed to
`""` in parser output); timestamps are `ℚ`. -/
structure CommandCore where
  id : String := ""
  type : CommandType
  status : CommandStatus := CommandStatus.PENDING
  created_at : ℚ := 0
  executed_at : Option ℚ := none
  completed_at : Option ℚ := none
  user_prompt : String := ""
  raw_response : String := ""
  error_message : Option String := none
  screenshot_id : Option String := none
  data : CommandData := {}
  deriving DecidableEq, Repr

/-- `Command` from `models/command.py`: its scalar fields plus the
(possibly empty) `sub_commands` list, which in Python holds values of
the same `Command` type. -/
inductive Command where
  | mk (core : CommandCore) (sub : List Command)
  deriving Repr

/-- The scalar fields of a `Command`. -/
def Command.core : Command → CommandCore
  | .mk k _ => k

/-- The `sub_commands` list of a `Command`. -/
def Command.sub_commands : Command → List Command
  | .mk _ s => s

def Command.type (c : Command) : CommandType := c.core.type

def Command.status (c : Command) : CommandStatus := c.core.status

def Command.executed_at (c : Command) : Option ℚ := c.core.executed_at

def Command.completed_at (c : Command) : Option ℚ := c.core.completed_at

def Command.error_message (c : Command) : Option String := c.core.error_message

def Command.data (c : Command) : CommandData := c.core.data

instance : Inhabited Command := ⟨Command.mk { type := CommandType.UNKNOWN } []⟩

/-- `Command.update_status` from `models/command.py` (the method mutates
`self`; here it returns the updated command, with `now` standing for
`datetime.now()`):

    self.status = status
    if status == CommandStatus.EXECUTING and not self.executed_at:
        self.executed_at = datetime.now()
    if status == CommandStatus.COMPLETED and not self.completed_at:
        self.completed_at = datetime.now()
    if status == CommandStatus.FAILED:
        self.error_message = error
-/
def Command.update_status (c : Command) (status : CommandStatus)
    (error : Option String) (now : ℚ) : Command :=
  let k1 := { c.core with status := status }
  let k2 := if status = CommandStatus.EXECUTING ∧ k1.executed_at = none then
      { k1 with executed_at := some now } else k1
  let k3 := if status = CommandStatus.COMPLETED ∧ k2.completed_at = none then
      { k2 with completed_at := some now } else k2
  let k4 := if status = CommandStatus.FAILED then
      { k3 with error_message := error } else k3
  Command.mk k4 c.sub_commands

/-! ### `system/command_executor.py`: `CommandExecutor`

`_execute_single_command` dispatches on `command.type`; the mouse,
keyboard, process and print primitives touch the host, so their
fault-freeness is an environment boolean `ok`.  The empty-payload
checks (`if not text`, `if not keys`, `if not command_str`) happen
before any host call and are modelled exactly; a `COMPOSITE` or
`UNKNOWN` type falls into the `else: return False` branch. -/

/-- `CommandExecutor._execute_single_command` (one invocation; `ok` is
whether the underlying host primitive runs without fault). -/
def executeSingleCommand (c : Command) (ok : Bool) : Bool :=
  match c.type with
  | CommandType.MOUSE_MOVE => ok
  | CommandType.MOUSE_CLICK => ok
  | CommandType.KEYBOARD_TYPE =>
      if c.data.text.getD "" = "" then false else ok
  | CommandType.KEYBOARD_HOTKEY =>
      if c.data.keys.getD [] = [] then false else ok
  | CommandType.START_PROCESS =>
      if c.data.command.getD "" = "" then false else ok
  | CommandType.PRINT_OUTPUT => ok
  | CommandType.COMPOSITE => false
  | CommandType.UNKNOWN => false

/-- The loop body of `CommandExecutor._execute_composite_command`:

    success = True
    for sub_command in command.sub_commands:
        sub_success = self._execute_single_command(sub_command)
        success = success and sub_success
        if not sub_success and sub_command.type != CommandType.PRINT_OUTPUT:
            break
        time.sleep(0.1)
    return success

`env i` is the host-fault environment of the `i`-th loop iteration.
The result pairs the returned `success` flag with the number of
children the loop attempted (an observation of the loop, used to state
the fail-fast/fail-soft claims). -/
def runComposite : List Command → (Nat → Bool) → Bool → Bool × Nat
  | [], _, success => (success, 0)
  | sub :: rest, env, success =>
      let subSuccess := executeSingleCommand sub (env 0)
      let success2 := success && subSuccess
      if subSuccess = false ∧ sub.type ≠ CommandType.PRINT_OUTPUT then
        (success2, 1)
      else
        let r := runComposite rest (fun i => env (i + 1)) success2
        (r.1, r.2 + 1)

/-- `CommandExecutor._execute_composite_command`: the value the loop
returns. -/
def executeCompositeCommand (c : Command) (env : Nat → Bool) : Bool :=
  (runComposite c.sub_commands env true).1

/-- How many children `_execute_composite_command` attempts (successive
loop iterations before a `break` or the end of the list). -/
def compositeAttempted (c : Command) (env : Nat → Bool) : Nat :=
  (runComposite c.sub_commands env true).2

/-- `CommandExecutor.execute_command`: skips commands already `FAILED`,
otherwise transitions the (root) command to `EXECUTING`, runs it, and
transitions it to `COMPLETED` or `FAILED "Command execution failed"`.
`tExec`/`tDone` stand for the two `datetime.now()` calls inside
`update_status`.  Returns the success flag and the updated command. -/
def executeCommand (c : Command) (env : Nat → Bool) (tExec tDone : ℚ) :
    Bool × Command :=
  if c.status = CommandStatus.FAILED then
    (false, c)
  else
    let c1 := c.update_status CommandStatus.EXECUTING none tExec
    let success :=
      if c1.type = CommandType.COMPOSITE then executeCompositeCommand c1 env
      else executeSingleCommand c1 (env 0)
    let c2 :=
      if success then c1.update_status CommandStatus.COMPLETED none tDone
      else c1.update_status CommandStatus.FAILED (some "Command execution failed") tDone
    (success, c2)

/-! ### `system/command_executor.py`: `CommandParser`

Python `str` operations are modelled on the string's character list.
The three regular expressions used by `_parse_single_command` are
deterministic on their inputs (each greedy character class is disjoint
from the literal that follows it), so each is transliterated into a
straight-line matcher; `(.+)` (greedy, `.` excluding newline) followed
by a literal tail is modelled by searching for the *last* position
where the tail matches wholly to the right of a newline-free group. -/

/-- ASCII whitespace, as stripped by Python `str.strip()` and matched
by the regex class `\s`. -/
def pySpace (c : Char) : Bool :=
  c = ' ' || c = '\t' || c = '\n' || c = '\r' || c = '\x0b' || c = '\x0c'

/-- Python `str.strip()` on character lists. -/
def pyStripL (l : List Char) : List Char :=
  ((l.dropWhile pySpace).reverse.dropWhile pySpace).reverse

/-- Python `str.strip()`. -/
def pyStrip (s : String) : String := String.mk (pyStripL s.data)

/-- Python `str.strip(chars)` (with an explicit character set) on
character lists. -/
def pyStripChars (cs : List Char) (l : List Char) : List Char :=
  ((l.dropWhile (cs.contains ·)).reverse.dropWhile (cs.contains ·)).reverse

/-- Python `str.startswith(tok)`. -/
def startsWithL (l tok : List Char) : Bool := tok.isPrefixOf l

/-- Python `str.split(sep)` for a one-character separator: keeps empty
pieces, so the result always has (number of separators + 1) pieces. -/
def splitOnCharL (sep : Char) : List Char → List (List Char)
  | [] => [[]]
  | c :: rest =>
      let r := splitOnCharL sep rest
      if c = sep then [] :: r
      else
        match r with
        | h :: t => (c :: h) :: t
        | [] => [[c]]

/-- Python `int()` on a (nonempty) string of decimal digits. -/
def digitsToNat (l : List Char) : Nat :=
  l.foldl (fun n c => 10 * n + (c.toNat - '0'.toNat)) 0

/-- The character class `[0-9.]` of the `duration` regex group. -/
def floatChar (c : Char) : Bool := c.isDigit || c = '.'

/-- Python `float()` restricted to strings over `[0-9.]` (the only
strings the `duration` group can capture): defined exactly when the
string has at most one `.` and at least one digit, in which case it
denotes the exact rational value.  `none` models `float()` raising
`ValueError` (which `_parse_single_command` catches, returning `None`).
-/
def pyFloatVal (l : List Char) : Option ℚ :=
  match splitOnCharL '.' l with
  | [ip] => if ip = [] then none else some ((digitsToNat ip : ℚ))
  | [ip, fp] =>
      if ip = [] ∧ fp = [] then none
      else some ((digitsToNat ip : ℚ) + (digitsToNat fp : ℚ) / (10 : ℚ) ^ fp.length)
  | _ => none

/-- Consume a literal token at the head of the input; `some rest` on
success. -/
def consumeLit : List Char → List Char → Option (List Char)
  | [], l => some l
  | _ :: _, [] => none
  | c :: cs, d :: ds => if c = d then consumeLit cs ds else none

/-- The regex
`pyautogui\.moveTo\((\d+),\s*(\d+)(?:,\s*duration=([0-9.]+))?\)`
matched with `re.match` (anchored at the start, trailing characters
allowed).  Each `\d+`/`[0-9.]+`/`\s*` is maximal-munch and its
follower is outside the class, and the optional group is forced
whenever the next character is `,` (the alternative requires `)`), so
the backtracking regex is equivalent to this deterministic matcher.
Returns the two integer groups and the optional raw `duration` group.
-/
def matchMoveTo (t : List Char) : Option (Nat × Nat × Option (List Char)) :=
  match consumeLit "pyautogui.moveTo(".data t with
  | none => none
  | some r0 =>
      let d1 := r0.takeWhile Char.isDigit
      let r1 := r0.dropWhile Char.isDigit
      if d1 = [] then none
      else
        match r1 with
        | [] => none
        | c1 :: r2 =>
            if c1 = ',' then
              let r2s := r2.dropWhile pySpace
              let d2 := r2s.takeWhile Char.isDigit
              let r3 := r2s.dropWhile Char.isDigit
              if d2 = [] then none
              else
                match r3 with
                | [] => none
                | c3 :: r4 =>
                    if c3 = ')' then some (digitsToNat d1, digitsToNat d2, none)
                    else if c3 = ',' then
                      let r4s := r4.dropWhile pySpace
                      match consumeLit "duration=".data r4s with
                      | none => none
                      | some r5 =>
                          let f := r5.takeWhile floatChar
                          let r6 := r5.dropWhile floatChar
                          if f = [] then none
                          else
                            match r6 with
                            | [] => none
                            | c6 :: _ =>
                                if c6 = ')' then
                                  some (digitsToNat d1, digitsToNat d2, some f)
                                else none
                    else none
            else none

/-- The group of `(.+)"\)` in `re.match`: the longest newline-free
group followed immediately by `"` then `)`. -/
def quotedGroup (r : List Char) : Option (List Char) :=
  (List.range r.length).reverse.findSome? fun i =>
    if 1 ≤ i ∧ r[i]? = some '"' ∧ r[i + 1]? = some ')' ∧
        (r.take i).all (fun c => c != '\n') = true then
      some (r.take i)
    else none

/-- The group of `(.+)\)` in `re.match`: the longest newline-free group
followed immediately by `)`. -/
def parenGroup (r : List Char) : Option (List Char) :=
  (List.range r.length).reverse.findSome? fun i =>
    if 1 ≤ i ∧ r[i]? = some ')' ∧
        (r.take i).all (fun c => c != '\n') = true then
      some (r.take i)
    else none

/-- `re.match(r'pyautogui\.typewrite\("(.+)"\)', t)`, returning the
group. -/
def matchTypewrite (t : List Char) : Option (List Char) :=
  match consumeLit "pyautogui.typewrite(\"".data t with
  | none => none
  | some r => quotedGroup r

/-- `re.match(r"pyautogui\.hotkey\((.+)\)", t)`, returning the group. -/
def matchHotkey (t : List Char) : Option (List Char) :=
  match consumeLit "pyautogui.hotkey(".data t with
  | none => none
  | some r => parenGroup r

/-- `re.match(r'print\("(.+)"\)', t)`, returning the group. -/
def matchPrint (t : List Char) : Option (List Char) :=
  match consumeLit "print(\"".data t with
  | none => none
  | some r => quotedGroup r

/-- The hotkey key list: `[k.strip().strip("'\"") for k in keys_str.split(',')]`. -/
def hotkeyKeys (g : List Char) : List String :=
  (splitOnCharL ',' g).map fun k =>
    String.mk (pyStripChars ['\'', '"'] (pyStripL k))

/-- `CommandParser._parse_single_command`: strips the fragment, then
walks the `if`/`elif` prefix chain of the source; a prefix whose regex
then fails to match (or whose `float()` conversion raises) yields
`None`, as does a fragment matching no prefix.  Generated UUIDs are
fixed to `""`. -/
def parse_single_command (commandText userPrompt : String)
    (screenshotId : Option String) : Option Command :=
  let t := pyStripL commandText.data
  if startsWithL t "pyautogui.moveTo".data = true then
    match matchMoveTo t with
    | some (x, y, durTok) =>
        let dur : Option ℚ :=
          match durTok with
          | none => some (1 / 10)
          | some f => pyFloatVal f
        match dur with
        | some q =>
            some (Command.mk
              { type := CommandType.MOUSE_MOVE, user_prompt := userPrompt,
                raw_response := String.mk t, screenshot_id := screenshotId,
                data := { x := some (x : Int), y := some (y : Int),
                          duration := some q } } [])
        | none => none
    | none => none
  else if startsWithL t "pyautogui.click".data = true then
    some (Command.mk
      { type := CommandType.MOUSE_CLICK, user_prompt := userPrompt,
        raw_response := String.mk t, screenshot_id := screenshotId,
        data := { button := some "left", clicks := some 1 } } [])
  else if startsWithL t "pyautogui.typewrite".data = true then
    match matchTypewrite t with
    | some g =>
        some (Command.mk
          { type := CommandType.KEYBOARD_TYPE, user_prompt := userPrompt,
            raw_response := String.mk t, screenshot_id := screenshotId,
            data := { text := some (String.mk g) } } [])
    | none => none
  else if startsWithL t "pyautogui.hotkey".data = true then
    match matchHotkey t with
    | some g =>
        some (Command.mk
          { type := CommandType.KEYBOARD_HOTKEY, user_prompt := userPrompt,
            raw_response := String.mk t, screenshot_id := screenshotId,
            data := { keys := some (hotkeyKeys g) } } [])
    | none => none
  else if startsWithL t "start ".data = true then
    some (Command.mk
      { type := CommandType.START_PROCESS, user_prompt := userPrompt,
        raw_response := String.mk t, screenshot_id := screenshotId,
        data := { command := some (String.mk (t.drop 6)) } } [])
  else if startsWithL t "print(".data = true then
    match matchPrint t with
    | some g =>
        some (Command.mk
          { type := CommandType.PRINT_OUTPUT, user_prompt := userPrompt,
            raw_response := String.mk t, screenshot_id := screenshotId,
            data := { text := some (String.mk g) } } [])
    | none => none
  else none

/-- The fixed error sentinel recognised by `parse_text_response`. -/
def errorSentinelText : String := "An error occurred, retrying..."

/-- `CommandParser.parse_text_response`: the sentinel short-circuit,
then the composite split on `;` (empty stripped fragments skipped,
unparseable fragments yielding no child), else the single-fragment
path with its Unknown fallback. -/
def parse_text_response (rawText userPrompt : String)
    (screenshotId : Option String) : Command :=
  if pyStrip rawText = errorSentinelText ∨
      startsWithL rawText.data "print('An error occurred".data = true then
    Command.mk
      { type := CommandType.UNKNOWN, status := CommandStatus.FAILED,
        user_prompt := userPrompt, raw_response := rawText,
        error_message := some "AI detected an error and suggested retry",
        screenshot_id := screenshotId } []
  else if rawText.data.contains ';' = true then
    let children := (splitOnCharL ';' rawText.data).filterMap fun frag =>
      let sub := pyStripL frag
      if sub = [] then none
      else parse_single_command (String.mk sub) userPrompt screenshotId
    Command.mk
      { type := CommandType.COMPOSITE, user_prompt := userPrompt,
        raw_response := rawText, screenshot_id := screenshotId } children
  else
    match parse_single_command rawText userPrompt screenshotId with
    | some c => c
    | none =>
        Command.mk
          { type := CommandType.UNKNOWN, user_prompt := userPrompt,
            raw_response := rawText, screenshot_id := screenshotId,
            error_message := some "Could not parse command" } []

/-! ### `system/command_executor.py`: function-call parsing -/

/-- The argument map of a structured function call, modelled as a
record of the keys `_parse_function_call` reads. -/
structure FunctionArgs where
  x : Option Int := none
  y : Option Int := none
  duration : Option ℚ := none
  text : Option String := none
  keys : Option (List String) := none
  path : Option String := none
  deriving DecidableEq, Repr

/-- `FunctionCall` from `models/response.py`. -/
structure FunctionCall where
  name : String
  arguments : FunctionArgs
  deriving DecidableEq, Repr

/-- The part of `AIResponse` (`models/response.py`) the function-call
parser reads. -/
structure AIResponse where
  raw_text : String
  function_calls : List FunctionCall
  deriving DecidableEq, Repr

/-- `CommandParser._parse_function_call`: the fixed five-name table;
an unrecognised name yields `None`.  (`raw_response`, in the source
`str(function_call.dict())`, is not modelled and left `""`.) -/
def parse_function_call (fc : FunctionCall) (userPrompt : String)
    (screenshotId : Option String) : Option Command :=
  if fc.name = "execute_mouse_movement" then
    some (Command.mk
      { type := CommandType.MOUSE_MOVE, user_prompt := userPrompt,
        screenshot_id := screenshotId,
        data := { x := some (fc.arguments.x.getD 0),
                  y := some (fc.arguments.y.getD 0),
                  duration := some (fc.arguments.duration.getD (1 / 10)) } } [])
  else if fc.name = "execute_keyboard_input" then
    some (Command.mk
      { type := CommandType.KEYBOARD_TYPE, user_prompt := userPrompt,
        screenshot_id := screenshotId,
        data := { text := some (fc.arguments.text.getD "") } } [])
  else if fc.name = "execute_hotkey" then
    some (Command.mk
      { type := CommandType.KEYBOARD_HOTKEY, user_prompt := userPrompt,
        screenshot_id := screenshotId,
        data := { keys := some (fc.arguments.keys.getD []) } } [])
  else if fc.name = "start_application" then
    some (Command.mk
      { type := CommandType.START_PROCESS, user_prompt := userPrompt,
        screenshot_id := screenshotId,
        data := { command := some (fc.arguments.path.getD "") } } [])
  else if fc.name = "print_output" then
    some (Command.mk
      { type := CommandType.PRINT_OUTPUT, user_prompt := userPrompt,
        screenshot_id := screenshotId,
        data := { text := some (fc.arguments.text.getD "") } } [])
  else none

/-- `CommandParser.parse_function_call_response`: zero calls → Unknown
(note: constructed *without* a `status` argument, so the model default
`PENDING` applies); one call → that call's Command or an Unknown
fallback; several calls → a Composite of the parseable ones. -/
def parse_function_call_response (resp : AIResponse) (userPrompt : String)
    (screenshotId : Option String) : Command :=
  match resp.function_calls with
  | [] =>
      Command.mk
        { type := CommandType.UNKNOWN, user_prompt := userPrompt,
          raw_response := resp.raw_text, screenshot_id := screenshotId,
          error_message := some "No function calls found in response" } []
  | [fc] =>
      match parse_function_call fc userPrompt screenshotId with
      | some c => c
      | none =>
          Command.mk
            { type := CommandType.UNKNOWN, user_prompt := userPrompt,
              raw_response := resp.raw_text, screenshot_id := screenshotId,
              error_message := some "Could not parse function call" } []
  | fcs =>
      Command.mk
        { type := CommandType.COMPOSITE, user_prompt := userPrompt,
          raw_response := resp.raw_text, screenshot_id := screenshotId }
        (fcs.filterMap fun fc => parse_function_call fc userPrompt screenshotId)

/-! ### `ai/context_manager.py`: `ContextWindow` and system state -/

/-- `CommandEntry` from `ai/context_manager.py`. -/
structure CommandEntry where
  timestamp : ℚ
  command : String
  user_prompt : String
  result : String
  screenshot_id : String
  deriving DecidableEq, Repr

/-- `ContextWindow` from `ai/context_manager.py`. -/
structure ContextWindow where
  max_entries : Nat := 10
  time_window : ℚ := 3600
  entries : List CommandEntry := []
  deriving DecidableEq, Repr

/-- Python `l[-n:]` for a nonnegative `n`.  Note the edge the source
inherits: for `n = 0` the slice is `l[-0:] = l[0:]`, the *whole* list,
not the empty one. -/
def pyLastSlice {α : Type} (n : Nat) (l : List α) : List α :=
  if n = 0 then l else l.drop (l.length - n)

/-- `ContextWindow._prune_old_entries` (with `now` for `time.time()`):
count pruning first (`entries[-max_entries:]` when over the limit),
then age pruning (keep `timestamp >= now - time_window`). -/
def ContextWindow.prune_old_entries (w : ContextWindow) (now : ℚ) :
    ContextWindow :=
  let byCount :=
    if w.max_entries < w.entries.length then pyLastSlice w.max_entries w.entries
    else w.entries
  let cutoff := now - w.time_window
  { w with entries := byCount.filter fun e => decide (cutoff ≤ e.timestamp) }

/-- `ContextWindow.add_entry`: append, then prune. -/
def ContextWindow.add_entry (w : ContextWindow) (e : CommandEntry) (now : ℚ) :
    ContextWindow :=
  ContextWindow.prune_old_entries { w with entries := w.entries ++ [e] } now

/-- One value of `ContextManager.system_state`: `{"value": v,
"updated_at": t}`. -/
structure StateEntry (α : Type) where
  value : α
  updated_at : ℚ
  deriving DecidableEq, Repr

/-- `ContextManager.system_state`, a Python dict modelled as an
insertion-ordered association list (keys unique in an actual dict). -/
abbrev SystemState (α : Type) : Type := List (String × StateEntry α)

/-- `ContextManager.get_system_state` as a state transformer on
`self.system_state`: an entry found but older than 3600 seconds is
deleted (`del self.system_state[key]`) and reported absent. -/
def get_system_state {α : Type} (s : SystemState α) (key : String)
    (now : ℚ) : Option α × SystemState α :=
  match List.lookup key s with
  | none => (none, s)
  | some entry =>
      if 3600 < now - entry.updated_at then
        (none, List.filter (fun kv => kv.1 != key) s)
      else (some entry.value, s)

/-- `ContextManager.get_all_system_state` as a state transformer: a
pure comprehension over `self.system_state` — expired entries are
filtered from the *result* but the store itself is returned unchanged
(the method never mutates it). -/
def get_all_system_state {α : Type} (s : SystemState α)
    (includeExpired : Bool) (now : ℚ) : List (String × α) × SystemState α :=
  if includeExpired then (s.map fun kv => (kv.1, kv.2.value), s)
  else
    ((List.filter (fun kv => decide (now - kv.2.updated_at ≤ 3600)) s).map
        fun kv => (kv.1, kv.2.value),
      s)

/-! ### Spec-side fragment builders (for stating the grammar claims) -/

/-- A fragment of the shape
`pyautogui.moveTo(<digits>,<spaces><digits>[,<spaces>duration=<tok>])`,
the textual surface form the `moveTo` grammar row accepts. -/
def moveToFragment (d1 sep1 d2 : List Char)
    (durdOpt : Option (List Char × List Char)) : List Char :=
  "pyautogui.moveTo(".data ++ d1 ++ [','] ++ sep1 ++ d2 ++
    (match durdOpt with
     | none => []
     | some (sep2, f) => [','] ++ sep2 ++ "duration=".data ++ f) ++ [')']

/-- The duration a `moveTo` fragment denotes: the default `0.1` when
the `duration` argument is omitted, else the value of the captured
float token. -/
def moveToDurVal : Option (List Char × List Char) → Option ℚ
  | none => some (1 / 10)
  | some (_, f) => pyFloatVal f

/-- Join fragments with `;` (the inverse of `str.split(';')` when no
fragment contains `;`). -/
def joinWithChar (sep : Char) : List (List Char) → List Char
  | [] => []
  | [l] => l
  | l :: rest => l ++ sep :: joinWithChar sep rest

/-! ### Concrete inputs used by witnesses and counterexamples -/

/-- A freshly parsed PrintOutput command. -/
def printCmd (s : String) : Command :=
  Command.mk { type := CommandType.PRINT_OUTPUT, data := { text := some s } } []

/-- A freshly parsed StartProcess command. -/
def startCmd (s : String) : Command :=
  Command.mk { type := CommandType.START_PROCESS, data := { command := some s } } []

/-- A host environment where exactly the second child's primitive
faults. -/
def failAt1 : Nat → Bool := fun i => decide (i ≠ 1)

/-- The composite `A;B;C` where `B` is a (non-print) process launch. -/
def sampleHaltComposite : Command :=
  Command.mk { type := CommandType.COMPOSITE }
    [printCmd "a", startCmd "x", printCmd "c"]

/-- The composite `A;print(fail);C` of the spec's fail-soft example. -/
def sampleSoftComposite : Command :=
  Command.mk { type := CommandType.COMPOSITE }
    [printCmd "a", printCmd "fail", printCmd "c"]

/-- A freshly parsed (non-composite) click command. -/
def pendingClick : Command :=
  Command.mk { type := CommandType.MOUSE_CLICK, user_prompt := "u",
               raw_response := "pyautogui.click()",
               data := { button := some "left", clicks := some 1 } } []

/-- A context window configured with `max_entries = 0`. -/
def zeroCapWindow : ContextWindow :=
  { max_entries := 0, time_window := 3600, entries := [] }

/-- A window with capacity 2 already holding two entries. -/
def twoCapWindow : ContextWindow :=
  { max_entries := 2, time_window := 3600,
    entries := [{ timestamp := 1, command := "c1", user_prompt := "u1",
                  result := "r1", screenshot_id := "s1" },
                { timestamp := 2, command := "c2", user_prompt := "u2",
                  result := "r2", screenshot_id := "s2" }] }

/-- A fresh context entry at timestamp 3. -/
def sampleEntry : CommandEntry :=
  { timestamp := 3, command := "c3", user_prompt := "u3", result := "r3",
    screenshot_id := "s3" }

/-- A system-state store holding one entry written at time 0. -/
def staleState : SystemState String :=
  [("k", { value := "v", updated_at := 0 })]

/-- A structured response carrying zero function calls. -/
def emptyCallsResponse : AIResponse := { raw_text := "", function_calls := [] }

/-! ## Theorems

First, general lemmas about the composite execution loop
`runComposite`; then one theorem per claim (with its witness or
counterexample where required). -/

theorem runComposite_cons_halt (c : Command) (rest : List Command)
    (env : Nat → Bool) (b : Bool)
    (h : executeSingleCommand c (env 0) = false ∧
      c.type ≠ CommandType.PRINT_OUTPUT) :
    runComposite (c :: rest) env b = (b && executeSingleCommand c (env 0), 1) := by
  simp only [runComposite]
  rw [if_pos h]

theorem runComposite_cons_cont (c : Command) (rest : List Command)
    (env : Nat → Bool) (b : Bool)
    (h : ¬(executeSingleCommand c (env 0) = false ∧
      c.type ≠ CommandType.PRINT_OUTPUT)) :
    runComposite (c :: rest) env b =
      ((runComposite rest (fun i => env (i + 1))
          (b && executeSingleCommand c (env 0))).1,
       (runComposite rest (fun i => env (i + 1))
          (b && executeSingleCommand c (env 0))).2 + 1) := by
  simp only [runComposite]
  rw [if_neg h]

theorem runComposite_cons_pos (c : Command) (rest : List Command)
    (env : Nat → Bool) (b : Bool) : 1 ≤ (runComposite (c :: rest) env b).2 := by
  by_cases h : executeSingleCommand c (env 0) = false ∧
      c.type ≠ CommandType.PRINT_OUTPUT
  · rw [runComposite_cons_halt c rest env b h]
  · rw [runComposite_cons_cont c rest env b h]
    exact Nat.le_add_left 1 _

/-- Fail-fast for the loop: if the child at `i` is attempted, fails,
and is not a PrintOutput, the loop stops right after it with a `false`
aggregate. -/
theorem runComposite_fail_fast (cs : List Command) :
    ∀ (env : Nat → Bool) (b : Bool) (i : Nat) (ci : Command),
      cs[i]? = some ci →
      executeSingleCommand ci (env i) = false →
      ci.type ≠ CommandType.PRINT_OUTPUT →
      i < (runComposite cs env b).2 →
      (runComposite cs env b).2 = i + 1 ∧ (runComposite cs env b).1 = false := by
  induction cs with
  | nil =>
      intro env b i ci hget _ _ hlt
      simp [runComposite] at hlt
  | cons c rest ih =>
      intro env b i ci hget hfail htype hlt
      by_cases hhalt : executeSingleCommand c (env 0) = false ∧
          c.type ≠ CommandType.PRINT_OUTPUT
      · rw [runComposite_cons_halt c rest env b hhalt] at hlt ⊢
        cases i with
        | zero =>
            have hci : c = ci := by simpa using hget
            subst hci
            exact ⟨rfl, by simp [hfail]⟩
        | succ j => omega
      · rw [runComposite_cons_cont c rest env b hhalt] at hlt ⊢
        cases i with
        | zero =>
            have hci : c = ci := by simpa using hget
            subst hci
            exact absurd ⟨hfail, htype⟩ hhalt
        | succ j =>
            have hget' : rest[j]? = some ci := by simpa using hget
            have hfail' : executeSingleCommand ci ((fun k => env (k + 1)) j) = false := hfail
            have hlt' : j < (runComposite rest (fun k => env (k + 1))
                (b && executeSingleCommand c (env 0))).2 := by omega
            obtain ⟨h1, h2⟩ := ih (fun k => env (k + 1))
              (b && executeSingleCommand c (env 0)) j ci hget' hfail' htype hlt'
            exact ⟨by omega, h2⟩

/-- Fail-soft for the loop: a failing attempted PrintOutput child does
not stop the loop — the next child (when there is one) is attempted
too. -/
theorem runComposite_print_soft (cs : List Command) :
    ∀ (env : Nat → Bool) (b : Bool) (i : Nat) (ci : Command),
      cs[i]? = some ci →
      i < (runComposite cs env b).2 →
      executeSingleCommand ci (env i) = false →
      ci.type = CommandType.PRINT_OUTPUT →
      i + 1 < cs.length →
      i + 1 < (runComposite cs env b).2 := by
  induction cs with
  | nil =>
      intro env b i ci hget hlt _ _ _
      simp [runComposite] at hlt
  | cons c rest ih =>
      intro env b i ci hget hlt hfail htype hlen
      by_cases hhalt : executeSingleCommand c (env 0) = false ∧
          c.type ≠ CommandType.PRINT_OUTPUT
      · rw [runComposite_cons_halt c rest env b hhalt] at hlt ⊢
        cases i with
        | zero =>
            have hci : c = ci := by simpa using hget
            subst hci
            exact absurd htype hhalt.2
        | succ j => omega
      · rw [runComposite_cons_cont c rest env b hhalt] at hlt ⊢
        cases i with
        | zero =>
            cases rest with
            | nil => simp at hlen
            | cons c2 rest2 =>
                have := runComposite_cons_pos c2 rest2 (fun k => env (k + 1))
                  (b && executeSingleCommand c (env 0))
                omega
        | succ j =>
            have hget' : rest[j]? = some ci := by simpa using hget
            have hfail' : executeSingleCommand ci ((fun k => env (k + 1)) j) = false := hfail
            have hlt' : j < (runComposite rest (fun k => env (k + 1))
                (b && executeSingleCommand c (env 0))).2 := by omega
            have hlen' : j + 1 < rest.length := by
              simpa [Nat.succ_lt_succ_iff] using hlen
            have := ih (fun k => env (k + 1)) (b && executeSingleCommand c (env 0))
              j ci hget' hlt' hfail' htype hlen'
            omega

theorem getD_eq_of_getElem? {α : Type} (l : List α) :
    ∀ (i : Nat) (a d : α), l[i]? = some a → l.getD i d = a := by
  induction l with
  | nil => intro i a d h; simp at h
  | cons x xs ih =>
      intro i a d h
      cases i with
      | zero => simpa using h
      | succ j =>
          have h' : xs[j]? = some a := by simpa using h
          simpa using ih j a d h'

/-- The aggregate the loop returns is the conjunction of the results
of exactly the attempted children. -/
theorem runComposite_fst_eq (cs : List Command) :
    ∀ (env : Nat → Bool) (b : Bool),
      (runComposite cs env b).1 =
        (b && (List.range (runComposite cs env b).2).all
          (fun i => executeSingleCommand (cs.getD i default) (env i))) := by
  induction cs with
  | nil => intro env b; simp [runComposite]
  | cons c rest ih =>
      intro env b
      by_cases hhalt : executeSingleCommand c (env 0) = false ∧
          c.type ≠ CommandType.PRINT_OUTPUT
      · rw [runComposite_cons_halt c rest env b hhalt]
        simp [List.range_succ]
      · rw [runComposite_cons_cont c rest env b hhalt]
        rw [ih (fun k => env (k + 1)) (b && executeSingleCommand c (env 0))]
        rw [List.range_succ_eq_map]
        simp [List.all_map, Function.comp_def, Bool.and_assoc,
          List.getElem?_cons_succ]

/-- **C1.** For every Composite command: if the child at position `i`
is attempted, returns failure, and its kind is not PrintOutput, then
the composite loop attempts no child after position `i` (it attempted
exactly `i + 1` children) and the composite execution returns
`false`. -/
theorem C1_composite_fail_fast (c : Command) (env : Nat → Bool) (i : Nat)
    (ci : Command)
    (hget : c.sub_commands[i]? = some ci)
    (hfail : executeSingleCommand ci (env i) = false)
    (htype : ci.type ≠ CommandType.PRINT_OUTPUT)
    (hatt : i < compositeAttempted c env) :
    compositeAttempted c env = i + 1 ∧ executeCompositeCommand c env = false :=
  runComposite_fail_fast c.sub_commands env true i ci hget hfail htype hatt

/-- Witness for C1 at the composite `A;B;C` with `B` a failing process
launch: only two children are attempted and the composite fails. -/
theorem C1_composite_fail_fast_witness :
    1 < compositeAttempted sampleHaltComposite failAt1 ∧
    (compositeAttempted sampleHaltComposite failAt1 = 1 + 1 ∧
      executeCompositeCommand sampleHaltComposite failAt1 = false) :=
  ⟨by decide,
   C1_composite_fail_fast sampleHaltComposite failAt1 1 (startCmd "x") rfl
     (by decide) (by decide) (by decide)⟩

/-- **C2.** For every Composite command: a failing attempted child of
kind PrintOutput does not halt the loop (the next child, when present,
is attempted); the composite's result is the logical AND over all
attempted children; hence the composite returns `false` whenever any
attempted child failed. -/
theorem C2_print_fail_soft_and_aggregate :
    (∀ (c : Command) (env : Nat → Bool) (i : Nat) (ci : Command),
        c.sub_commands[i]? = some ci →
        i < compositeAttempted c env →
        executeSingleCommand ci (env i) = false →
        ci.type = CommandType.PRINT_OUTPUT →
        i + 1 < c.sub_commands.length →
        i + 1 < compositeAttempted c env) ∧
    (∀ (c : Command) (env : Nat → Bool),
        executeCompositeCommand c env =
          (List.range (compositeAttempted c env)).all
            (fun i => executeSingleCommand (c.sub_commands.getD i default) (env i))) ∧
    (∀ (c : Command) (env : Nat → Bool) (i : Nat) (ci : Command),
        c.sub_commands[i]? = some ci →
        i < compositeAttempted c env →
        executeSingleCommand ci (env i) = false →
        executeCompositeCommand c env = false) := by
  refine ⟨?_, ?_, ?_⟩
  · intro c env i ci hget hlt hfail htype hlen
    exact runComposite_print_soft c.sub_commands env true i ci hget hlt hfail htype hlen
  · intro c env
    have h := runComposite_fst_eq c.sub_commands env true
    simpa [executeCompositeCommand, compositeAttempted] using h
  · intro c env i ci hget hlt hfail
    have h := runComposite_fst_eq c.sub_commands env true
    have hall : (List.range (runComposite c.sub_commands env true).2).all
        (fun j => executeSingleCommand (c.sub_commands.getD j default) (env j)) = false := by
      apply List.all_eq_false.mpr
      refine ⟨i, List.mem_range.mpr hlt, ?_⟩
      rw [getD_eq_of_getElem? c.sub_commands i ci default hget, hfail]
      decide
    rw [executeCompositeCommand, h, hall]
    decide

/-- Witness for C2 at the composite `A;print(fail);C`: the failing
print is attempted, the third child is still attempted, and the
composite is reported failed. -/
theorem C2_print_fail_soft_and_aggregate_witness :
    1 < compositeAttempted sampleSoftComposite failAt1 ∧
    1 + 1 < compositeAttempted sampleSoftComposite failAt1 ∧
    executeCompositeCommand sampleSoftComposite failAt1 = false :=
  ⟨by decide,
   C2_print_fail_soft_and_aggregate.1 sampleSoftComposite failAt1 1
     (printCmd "fail") rfl (by decide) (by decide) (by decide) (by decide),
   C2_print_fail_soft_and_aggregate.2.2 sampleSoftComposite failAt1 1
     (printCmd "fail") rfl (by decide) (by decide)⟩

/-- **C3.** Raw text whose trimmed content equals the error sentinel
parses to a single Unknown command with status Failed and a non-empty
error message (the source function takes no retry flag at all, so the
result cannot depend on one). -/
theorem C3_sentinel_short_circuit (rawText userPrompt : String)
    (screenshotId : Option String)
    (h : pyStrip rawText = errorSentinelText) :
    (parse_text_response rawText userPrompt screenshotId).type = CommandType.UNKNOWN ∧
    (parse_text_response rawText userPrompt screenshotId).status = CommandStatus.FAILED ∧
    (parse_text_response rawText userPrompt screenshotId).sub_commands = [] ∧
    ∃ m, (parse_text_response rawText userPrompt screenshotId).error_message = some m ∧
      m ≠ "" := by
  have hred : parse_text_response rawText userPrompt screenshotId =
      Command.mk
        { type := CommandType.UNKNOWN, status := CommandStatus.FAILED,
          user_prompt := userPrompt, raw_response := rawText,
          error_message := some "AI detected an error and suggested retry",
          screenshot_id := screenshotId } [] := by
    unfold parse_text_response
    rw [if_pos (Or.inl h)]
  rw [hred]
  exact ⟨rfl, rfl, rfl, "AI detected an error and suggested retry", rfl, by decide⟩

/-- Witness for C3: the sentinel surrounded by whitespace. -/
theorem C3_sentinel_short_circuit_witness :
    pyStrip "  An error occurred, retrying...  " = errorSentinelText ∧
    ((parse_text_response "  An error occurred, retrying...  " "u" none).type =
        CommandType.UNKNOWN ∧
      (parse_text_response "  An error occurred, retrying...  " "u" none).status =
        CommandStatus.FAILED ∧
      (parse_text_response "  An error occurred, retrying...  " "u" none).sub_commands = [] ∧
      ∃ m, (parse_text_response "  An error occurred, retrying...  " "u" none).error_message =
          some m ∧ m ≠ "") :=
  ⟨by decide, C3_sentinel_short_circuit "  An error occurred, retrying...  " "u" none (by decide)⟩

/-! ### Lemmas about `Command.update_status` -/

theorem update_status_status (c : Command) (s : CommandStatus)
    (e : Option String) (now : ℚ) : (c.update_status s e now).status = s := by
  rcases c with ⟨⟨i, ty, st, ca, ea, coa, up, rr, em, sid, da⟩, subs⟩
  simp only [Command.update_status, Command.status, Command.core]
  split_ifs <;> rfl

theorem update_status_executed_at (c : Command) (s : CommandStatus)
    (e : Option String) (now : ℚ) :
    (c.update_status s e now).executed_at =
      if s = CommandStatus.EXECUTING ∧ c.executed_at = none then some now
      else c.executed_at := by
  rcases c with ⟨⟨i, ty, st, ca, ea, coa, up, rr, em, sid, da⟩, subs⟩
  simp only [Command.update_status, Command.executed_at, Command.core]
  split_ifs <;> simp_all

theorem update_status_completed_at (c : Command) (s : CommandStatus)
    (e : Option String) (now : ℚ) :
    (c.update_status s e now).completed_at =
      if s = CommandStatus.COMPLETED ∧ c.completed_at = none then some now
      else c.completed_at := by
  rcases c with ⟨⟨i, ty, st, ca, ea, coa, up, rr, em, sid, da⟩, subs⟩
  simp only [Command.update_status, Command.completed_at, Command.core]
  split_ifs <;> simp_all

theorem update_status_error_message (c : Command) (s : CommandStatus)
    (e : Option String) (now : ℚ) :
    (c.update_status s e now).error_message =
      if s = CommandStatus.FAILED then e else c.error_message := by
  rcases c with ⟨⟨i, ty, st, ca, ea, coa, up, rr, em, sid, da⟩, subs⟩
  simp only [Command.update_status, Command.error_message, Command.core]
  split_ifs <;> simp_all

theorem update_status_sub_commands (c : Command) (s : CommandStatus)
    (e : Option String) (now : ℚ) :
    (c.update_status s e now).sub_commands = c.sub_commands := rfl

theorem update_status_frame (c : Command) (s : CommandStatus)
    (e : Option String) (now : ℚ) :
    (c.update_status s e now).type = c.type ∧
    (c.update_status s e now).data = c.data ∧
    (c.update_status s e now).core.user_prompt = c.core.user_prompt ∧
    (c.update_status s e now).core.raw_response = c.core.raw_response ∧
    (c.update_status s e now).core.screenshot_id = c.core.screenshot_id ∧
    (c.update_status s e now).core.id = c.core.id ∧
    (c.update_status s e now).core.created_at = c.core.created_at := by
  rcases c with ⟨⟨i, ty, st, ca, ea, coa, up, rr, em, sid, da⟩, subs⟩
  simp only [Command.update_status, Command.type, Command.data, Command.core]
  split_ifs <;> exact ⟨rfl, rfl, rfl, rfl, rfl, rfl, rfl⟩

/-- **C6 counterexample.** On a command whose completed timestamp is
unset, moving to Failed leaves it unset: the transition to Failed does
*not* set the completed timestamp, contrary to the claim. -/
theorem C6_counterexample_failed_leaves_completed_unset :
    pendingClick.completed_at = none ∧
    (pendingClick.update_status CommandStatus.FAILED (some "boom") 7).status =
      CommandStatus.FAILED ∧
    (pendingClick.update_status CommandStatus.FAILED (some "boom") 7).completed_at =
      none := by
  refine ⟨rfl, ?_, ?_⟩ <;> decide

/-- **C6 (amended).** Moving to Executing sets the executed timestamp
only if unset (and is idempotent across repeated calls); moving to
Completed sets the completed timestamp only if unset; moving to Failed
*never touches* the completed timestamp and always overwrites the
error message with the supplied one. -/
theorem C6_amended_lifecycle_transitions (c : Command) (error e2 : Option String)
    (now now2 : ℚ) :
    ((c.executed_at = none →
        (c.update_status CommandStatus.EXECUTING error now).executed_at = some now) ∧
      (∀ t, c.executed_at = some t →
        (c.update_status CommandStatus.EXECUTING error now).executed_at = some t) ∧
      ((c.update_status CommandStatus.EXECUTING error now).update_status
          CommandStatus.EXECUTING e2 now2).executed_at =
        (c.update_status CommandStatus.EXECUTING error now).executed_at) ∧
    ((c.completed_at = none →
        (c.update_status CommandStatus.COMPLETED error now).completed_at = some now) ∧
      (∀ t, c.completed_at = some t →
        (c.update_status CommandStatus.COMPLETED error now).completed_at = some t)) ∧
    ((c.update_status CommandStatus.FAILED error now).completed_at = c.completed_at ∧
      (c.update_status CommandStatus.FAILED error now).error_message = error) := by
  refine ⟨⟨?_, ?_, ?_⟩, ⟨?_, ?_⟩, ?_, ?_⟩
  · intro h; rw [update_status_executed_at]; simp [h]
  · intro t h; rw [update_status_executed_at]; simp [h]
  · rw [update_status_executed_at, update_status_executed_at]
    rcases hce : c.executed_at with _ | t <;> simp [hce]
  · intro h; rw [update_status_completed_at]; simp [h]
  · intro t h; rw [update_status_completed_at]; simp [h]
  · rw [update_status_completed_at]; simp
  · rw [update_status_error_message]; simp

/-- Witness for C6 (amended) at a freshly parsed click command. -/
theorem C6_amended_lifecycle_transitions_witness :
    pendingClick.executed_at = none ∧
    (pendingClick.update_status CommandStatus.EXECUTING none 5).executed_at = some 5 ∧
    (pendingClick.update_status CommandStatus.FAILED (some "boom") 5).error_message =
      some "boom" :=
  ⟨rfl,
   (C6_amended_lifecycle_transitions pendingClick none none 5 5).1.1 rfl,
   (C6_amended_lifecycle_transitions pendingClick (some "boom") none 5 5).2.2.2⟩

/-! ### C9: zero function calls -/

/-- **C9 counterexample.** On a response with zero function calls the
parser returns an Unknown command whose status is the *default*
`PENDING` — not `FAILED` as the claim states. -/
theorem C9_counterexample_zero_calls_status :
    (parse_function_call_response emptyCallsResponse "p" none).type =
      CommandType.UNKNOWN ∧
    (parse_function_call_response emptyCallsResponse "p" none).status =
      CommandStatus.PENDING ∧
    (parse_function_call_response emptyCallsResponse "p" none).status ≠
      CommandStatus.FAILED := by
  refine ⟨rfl, rfl, by decide⟩

/-- **C9 (amended).** A structured response with zero function calls
parses to a single Unknown command carrying the "no function calls
found" diagnostic, with the default status Pending (the constructor is
called without a `status` argument). -/
theorem C9_amended_zero_calls (resp : AIResponse) (userPrompt : String)
    (sid : Option String) (h : resp.function_calls = []) :
    (parse_function_call_response resp userPrompt sid).type = CommandType.UNKNOWN ∧
    (parse_function_call_response resp userPrompt sid).status = CommandStatus.PENDING ∧
    (parse_function_call_response resp userPrompt sid).error_message =
      some "No function calls found in response" ∧
    (parse_function_call_response resp userPrompt sid).sub_commands = [] := by
  simp only [parse_function_call_response, h]
  exact ⟨rfl, rfl, rfl, rfl⟩

/-- Witness for C9 (amended). -/
theorem C9_amended_zero_calls_witness :
    emptyCallsResponse.function_calls = [] ∧
    ((parse_function_call_response emptyCallsResponse "p" none).type =
        CommandType.UNKNOWN ∧
      (parse_function_call_response emptyCallsResponse "p" none).status =
        CommandStatus.PENDING ∧
      (parse_function_call_response emptyCallsResponse "p" none).error_message =
        some "No function calls found in response" ∧
      (parse_function_call_response emptyCallsResponse "p" none).sub_commands = []) :=
  ⟨rfl, C9_amended_zero_calls emptyCallsResponse "p" none rfl⟩

/-! ### C7: context-window pruning -/

/-- **C7 counterexample.** With `max_entries = 0` the count prune
slices `entries[-0:]`, i.e. keeps everything: after one insertion the
window holds 1 entry, violating `length ≤ max_entries`. -/
theorem C7_counterexample_zero_capacity :
    (zeroCapWindow.add_entry sampleEntry 3).entries.length = 1 ∧
    zeroCapWindow.max_entries = 0 ∧
    ¬((zeroCapWindow.add_entry sampleEntry 3).entries.length ≤
        zeroCapWindow.max_entries) := by
  have hent : (zeroCapWindow.add_entry sampleEntry 3).entries = [sampleEntry] := by
    norm_num [ContextWindow.add_entry, ContextWindow.prune_old_entries,
      pyLastSlice, zeroCapWindow, sampleEntry, List.filter]
  refine ⟨by rw [hent]; rfl, rfl, by rw [hent]; decide⟩

/-- **C7 (amended).** For every window with `max_entries ≥ 1`,
immediately after each insertion: the number of retained entries is at
most `max_entries`, every retained entry's timestamp is at least
`now - time_window`, and the retained entries are a sublist of the
pre-insertion entries followed by the new one (oldest-first order
preserved).  Pruning is count-first, then age, per
`_prune_old_entries`. -/
theorem C7_amended_window_invariant (w : ContextWindow) (e : CommandEntry)
    (now : ℚ) (hmax : 1 ≤ w.max_entries) :
    (w.add_entry e now).entries.length ≤ w.max_entries ∧
    (∀ x ∈ (w.add_entry e now).entries, now - w.time_window ≤ x.timestamp) ∧
    (w.add_entry e now).entries.Sublist (w.entries ++ [e]) := by
  unfold ContextWindow.add_entry ContextWindow.prune_old_entries
  dsimp only
  by_cases hlen : w.max_entries < (w.entries ++ [e]).length
  · rw [if_pos hlen]
    unfold pyLastSlice
    rw [if_neg (by omega)]
    refine ⟨?_, ?_, ?_⟩
    · have h1 := List.length_filter_le
        (fun x => decide (now - w.time_window ≤ x.timestamp))
        ((w.entries ++ [e]).drop ((w.entries ++ [e]).length - w.max_entries))
      have h2 := List.length_drop ((w.entries ++ [e]).length - w.max_entries)
        (w.entries ++ [e])
      omega
    · intro x hx
      exact of_decide_eq_true (List.mem_filter.mp hx).2
    · exact (List.filter_sublist _).trans (List.drop_sublist _ _)
  · rw [if_neg hlen]
    refine ⟨?_, ?_, ?_⟩
    · have h1 := List.length_filter_le
        (fun x => decide (now - w.time_window ≤ x.timestamp)) (w.entries ++ [e])
      omega
    · intro x hx
      exact of_decide_eq_true (List.mem_filter.mp hx).2
    · exact List.filter_sublist _

/-- Witness for C7 (amended): capacity 2, two old entries, one fresh
insertion. -/
theorem C7_amended_window_invariant_witness :
    1 ≤ twoCapWindow.max_entries ∧
    ((twoCapWindow.add_entry sampleEntry 3).entries.length ≤ twoCapWindow.max_entries ∧
      (∀ x ∈ (twoCapWindow.add_entry sampleEntry 3).entries,
        (3 : ℚ) - twoCapWindow.time_window ≤ x.timestamp) ∧
      (twoCapWindow.add_entry sampleEntry 3).entries.Sublist
        (twoCapWindow.entries ++ [sampleEntry])) :=
  ⟨by decide, C7_amended_window_invariant twoCapWindow sampleEntry 3 (by decide)⟩

/-! ### C8: TTL eviction -/

theorem lookup_eq_some_mem {α : Type} (l : List (String × StateEntry α)) :
    ∀ (k : String) (v : StateEntry α), List.lookup k l = some v → (k, v) ∈ l := by
  induction l with
  | nil => intro k v h; simp [List.lookup] at h
  | cons a rest ih =>
      intro k v h
      obtain ⟨k1, v1⟩ := a
      rw [List.lookup] at h
      rcases hbeq : (k == k1) with _ | _
      · rw [hbeq] at h
        exact List.mem_cons_of_mem _ (ih k v h)
      · rw [hbeq] at h
        have hk : k = k1 := eq_of_beq hbeq
        have hv : v1 = v := by simpa using h
        subst hk; subst hv
        exact List.mem_cons_self _ _

theorem lookup_filter_ne {α : Type} (l : List (String × StateEntry α))
    (k : String) :
    List.lookup k (List.filter (fun kv => kv.1 != k) l) = none := by
  induction l with
  | nil => simp
  | cons a rest ih =>
      obtain ⟨k1, v1⟩ := a
      rcases hne : ((k1, v1).1 != k) with _ | _
      · simpa [List.filter, hne] using ih
      · have hk : k1 ≠ k := by simpa using hne
        have hbeq : (k == k1) = false := by
          simpa using Ne.symm hk
        simp only [List.filter, hne, List.lookup, hbeq]
        exact ih

theorem lookup_map_value_none {α : Type} (l : List (String × StateEntry α))
    (k : String) (h : ∀ kv ∈ l, kv.1 ≠ k) :
    List.lookup k (l.map fun kv => (kv.1, kv.2.value)) = none := by
  induction l with
  | nil => simp
  | cons a rest ih =>
      obtain ⟨k1, v1⟩ := a
      have hk : k1 ≠ k := h (k1, v1) (List.mem_cons_self _ _)
      have hbeq : (k == k1) = false := by simpa using Ne.symm hk
      simp only [List.map_cons, List.lookup, hbeq]
      exact ih fun kv hkv => h kv (List.mem_cons_of_mem _ hkv)

/-- **C8 counterexample.** A bulk read (`include_expired = false`) that
discovers an expired key omits it from its result but does *not*
delete it: the store after the read still contains the expired key,
contrary to "the expired key is deleted from the store as a side
effect of the read that discovers it". -/
theorem C8_counterexample_bulk_read_does_not_delete :
    (get_all_system_state staleState false 4000).1 = [] ∧
    (get_all_system_state staleState false 4000).2 = staleState ∧
    List.lookup "k" (get_all_system_state staleState false 4000).2 =
      some { value := "v", updated_at := 0 } := by
  have h1 : (get_all_system_state staleState false 4000).1 = [] := by
    norm_num [get_all_system_state, staleState, List.filter]
  exact ⟨h1, rfl, rfl⟩

/-- **C8 (amended).** For a key whose entries are all older than the
1-hour TTL at read time: the single-key read returns absent *and*
deletes the key as a side effect; the bulk read with
`include_expired = false` returns the key as absent but leaves the
store unchanged (it only filters its result); a bulk read after the
single-key eviction also omits the key. -/
theorem C8_amended_ttl_eviction {α : Type} (s : SystemState α) (key : String)
    (entry : StateEntry α) (now : ℚ)
    (hfound : List.lookup key s = some entry)
    (hexp : ∀ kv ∈ s, kv.1 = key → 3600 < now - kv.2.updated_at) :
    (get_system_state s key now).1 = none ∧
    List.lookup key (get_system_state s key now).2 = none ∧
    List.lookup key (get_all_system_state s false now).1 = none ∧
    (get_all_system_state s false now).2 = s ∧
    List.lookup key
      (get_all_system_state (get_system_state s key now).2 false now).1 = none := by
  have hmem : (key, entry) ∈ s := lookup_eq_some_mem s key entry hfound
  have hold : 3600 < now - entry.updated_at := hexp (key, entry) hmem rfl
  have hred : get_system_state s key now =
      (none, List.filter (fun kv => kv.1 != key) s) := by
    simp only [get_system_state, hfound]
    rw [if_pos hold]
  have hga : ∀ (s' : SystemState α), get_all_system_state s' false now =
      ((List.filter (fun kv => decide (now - kv.2.updated_at ≤ 3600)) s').map
        (fun kv => (kv.1, kv.2.value)), s') := fun _ => rfl
  refine ⟨by rw [hred], ?_, ?_, ?_, ?_⟩
  · rw [hred]
    exact lookup_filter_ne s key
  · rw [hga]
    apply lookup_map_value_none
    intro kv hkv heq
    have h1 := List.mem_filter.mp hkv
    have h2 := of_decide_eq_true h1.2
    exact absurd (hexp kv h1.1 heq) (not_lt.mpr h2)
  · rw [hga]
  · rw [hred, hga]
    apply lookup_map_value_none
    intro kv hkv heq
    have h1 := List.mem_filter.mp hkv
    have h2 := List.mem_filter.mp h1.1
    have h3 : (kv.1 != key) = true := h2.2
    simp only [heq] at h3
    simp at h3

/-- Witness for C8 (amended) at a store whose only entry is 4000
seconds old. -/
theorem C8_amended_ttl_eviction_witness :
    List.lookup "k" staleState = some { value := "v", updated_at := 0 } ∧
    ((get_system_state staleState "k" 4000).1 = none ∧
      List.lookup "k" (get_system_state staleState "k" 4000).2 = none ∧
      List.lookup "k" (get_all_system_state staleState false 4000).1 = none ∧
      (get_all_system_state staleState false 4000).2 = staleState ∧
      List.lookup "k"
        (get_all_system_state (get_system_state staleState "k" 4000).2 false 4000).1 =
        none) :=
  ⟨rfl, C8_amended_ttl_eviction staleState "k" { value := "v", updated_at := 0 }
    4000 rfl (by
      intro kv hkv heq
      simp only [staleState, List.mem_singleton] at hkv
      subst hkv
      norm_num)⟩

/-! ### C10: composite execution frame -/

theorem executeCommand_snd_frame (c : Command) (env : Nat → Bool) (t1 t2 : ℚ) :
    (executeCommand c env t1 t2).2.sub_commands = c.sub_commands ∧
    (executeCommand c env t1 t2).2.type = c.type ∧
    (executeCommand c env t1 t2).2.data = c.data ∧
    (executeCommand c env t1 t2).2.core.user_prompt = c.core.user_prompt ∧
    (executeCommand c env t1 t2).2.core.raw_response = c.core.raw_response ∧
    (executeCommand c env t1 t2).2.core.screenshot_id = c.core.screenshot_id ∧
    (executeCommand c env t1 t2).2.core.id = c.core.id ∧
    (executeCommand c env t1 t2).2.core.created_at = c.core.created_at := by
  unfold executeCommand
  by_cases hst : c.status = CommandStatus.FAILED
  · rw [if_pos hst]
    exact ⟨rfl, rfl, rfl, rfl, rfl, rfl, rfl, rfl⟩
  · rw [if_neg hst]
    dsimp only
    have h1 := update_status_frame c CommandStatus.EXECUTING none t1
    have hsub1 := update_status_sub_commands c CommandStatus.EXECUTING none t1
    have key : ∀ (s2 : CommandStatus) (e2 : Option String),
        ((c.update_status CommandStatus.EXECUTING none t1).update_status
            s2 e2 t2).sub_commands = c.sub_commands ∧
        ((c.update_status CommandStatus.EXECUTING none t1).update_status
            s2 e2 t2).type = c.type ∧
        ((c.update_status CommandStatus.EXECUTING none t1).update_status
            s2 e2 t2).data = c.data ∧
        ((c.update_status CommandStatus.EXECUTING none t1).update_status
            s2 e2 t2).core.user_prompt = c.core.user_prompt ∧
        ((c.update_status CommandStatus.EXECUTING none t1).update_status
            s2 e2 t2).core.raw_response = c.core.raw_response ∧
        ((c.update_status CommandStatus.EXECUTING none t1).update_status
            s2 e2 t2).core.screenshot_id = c.core.screenshot_id ∧
        ((c.update_status CommandStatus.EXECUTING none t1).update_status
            s2 e2 t2).core.id = c.core.id ∧
        ((c.update_status CommandStatus.EXECUTING none t1).update_status
            s2 e2 t2).core.created_at = c.core.created_at := by
      intro s2 e2
      have h2 := update_status_frame
        (c.update_status CommandStatus.EXECUTING none t1) s2 e2 t2
      have hsub2 := update_status_sub_commands
        (c.update_status CommandStatus.EXECUTING none t1) s2 e2 t2
      exact ⟨hsub2.trans hsub1, h2.1.trans h1.1, h2.2.1.trans h1.2.1,
        h2.2.2.1.trans h1.2.2.1, h2.2.2.2.1.trans h1.2.2.2.1,
        h2.2.2.2.2.1.trans h1.2.2.2.2.1, h2.2.2.2.2.2.1.trans h1.2.2.2.2.2.1,
        h2.2.2.2.2.2.2.trans h1.2.2.2.2.2.2⟩
    split_ifs <;> exact key _ _

/-- **C10.** Executing a Composite command mutates only the root
command's status, timestamps and error: the children list is returned
untouched (same list), the root's kind, payload and provenance fields
are preserved, and every child that was freshly parsed (Pending, no
timestamps, no error) is still in that pristine state after the
composite execution finishes — whatever the host environment did. -/
theorem C10_composite_execution_frame (c : Command) (env : Nat → Bool)
    (t1 t2 : ℚ) (_htype : c.type = CommandType.COMPOSITE)
    (hfresh : ∀ sc ∈ c.sub_commands, sc.status = CommandStatus.PENDING ∧
      sc.executed_at = none ∧ sc.completed_at = none ∧ sc.error_message = none) :
    (executeCommand c env t1 t2).2.sub_commands = c.sub_commands ∧
    (executeCommand c env t1 t2).2.type = c.type ∧
    (executeCommand c env t1 t2).2.data = c.data ∧
    (executeCommand c env t1 t2).2.core.user_prompt = c.core.user_prompt ∧
    (executeCommand c env t1 t2).2.core.raw_response = c.core.raw_response ∧
    (executeCommand c env t1 t2).2.core.screenshot_id = c.core.screenshot_id ∧
    ∀ sc ∈ (executeCommand c env t1 t2).2.sub_commands,
      sc.status = CommandStatus.PENDING ∧ sc.executed_at = none ∧
      sc.completed_at = none ∧ sc.error_message = none := by
  obtain ⟨hsub, hty, hda, hup, hrr, hsi, _, _⟩ :=
    executeCommand_snd_frame c env t1 t2
  refine ⟨hsub, hty, hda, hup, hrr, hsi, ?_⟩
  intro sc hsc
  rw [hsub] at hsc
  exact hfresh sc hsc

/-- Witness for C10 at the composite `A;B;C` with a faulting second
child. -/
theorem C10_composite_execution_frame_witness :
    sampleHaltComposite.type = CommandType.COMPOSITE ∧
    ((executeCommand sampleHaltComposite failAt1 1 2).2.sub_commands =
        sampleHaltComposite.sub_commands ∧
      (executeCommand sampleHaltComposite failAt1 1 2).2.type =
        sampleHaltComposite.type ∧
      (executeCommand sampleHaltComposite failAt1 1 2).2.data =
        sampleHaltComposite.data ∧
      (executeCommand sampleHaltComposite failAt1 1 2).2.core.user_prompt =
        sampleHaltComposite.core.user_prompt ∧
      (executeCommand sampleHaltComposite failAt1 1 2).2.core.raw_response =
        sampleHaltComposite.core.raw_response ∧
      (executeCommand sampleHaltComposite failAt1 1 2).2.core.screenshot_id =
        sampleHaltComposite.core.screenshot_id ∧
      ∀ sc ∈ (executeCommand sampleHaltComposite failAt1 1 2).2.sub_commands,
        sc.status = CommandStatus.PENDING ∧ sc.executed_at = none ∧
        sc.completed_at = none ∧ sc.error_message = none) :=
  ⟨rfl, C10_composite_execution_frame sampleHaltComposite failAt1 1 2 rfl
    (by decide)⟩

/-! ### C4: the `moveTo` grammar row -/

theorem consumeLit_append (tok rest : List Char) :
    consumeLit tok (tok ++ rest) = some rest := by
  induction tok with
  | nil => rfl
  | cons c cs ih => simp [consumeLit, ih]

theorem takeWhile_append_eq {p : Char → Bool} (l1 l2 : List Char)
    (h1 : ∀ x ∈ l1, p x = true)
    (h2 : ∀ c, l2.head? = some c → p c = false) :
    (l1 ++ l2).takeWhile p = l1 ∧ (l1 ++ l2).dropWhile p = l2 := by
  induction l1 with
  | nil =>
      cases l2 with
      | nil => exact ⟨rfl, rfl⟩
      | cons c cs =>
          have hc := h2 c rfl
          exact ⟨by simp [List.takeWhile_cons, hc], by simp [List.dropWhile_cons, hc]⟩
  | cons a t ih =>
      have ha : p a = true := h1 a (List.mem_cons_self _ _)
      obtain ⟨ht, hd⟩ := ih (fun x hx => h1 x (List.mem_cons_of_mem _ hx))
      exact ⟨by simp [List.takeWhile_cons, ha, ht],
        by simp [List.dropWhile_cons, ha, hd]⟩

theorem dropWhile_eq_self_of_head {p : Char → Bool} (l : List Char)
    (h : ∀ c, l.head? = some c → p c = false) :
    l.dropWhile p = l := by
  cases l with
  | nil => rfl
  | cons a t => simp [List.dropWhile_cons, h a rfl]

theorem pyStripL_eq_self (l : List Char)
    (h1 : ∀ c, l.head? = some c → pySpace c = false)
    (h2 : ∀ c, l.getLast? = some c → pySpace c = false) :
    pyStripL l = l := by
  unfold pyStripL
  rw [dropWhile_eq_self_of_head l h1,
    dropWhile_eq_self_of_head l.reverse
      (fun c hc => h2 c (by rwa [List.head?_reverse] at hc)),
    List.reverse_reverse]

theorem digit_not_pySpace (c : Char) (h : c.isDigit = true) :
    pySpace c = false := by
  cases hps : pySpace c
  · rfl
  · exfalso
    simp only [pySpace, Bool.or_eq_true, decide_eq_true_eq] at hps
    rcases hps with ((((h1 | h1) | h1) | h1) | h1) | h1 <;> subst h1 <;>
      exact absurd h (by decide)

/-- The `moveTo` regex accepts a fragment of the surface shape and
captures the two digit groups and the optional duration token. -/
theorem matchMoveTo_fragment (d1 sep1 d2 : List Char)
    (durdOpt : Option (List Char × List Char))
    (hd1 : d1 ≠ []) (hd1d : ∀ ch ∈ d1, ch.isDigit = true)
    (hsep1 : ∀ ch ∈ sep1, pySpace ch = true)
    (hd2 : d2 ≠ []) (hd2d : ∀ ch ∈ d2, ch.isDigit = true)
    (hdwf : durdOpt = none ∨ ∃ sep2 f, durdOpt = some (sep2, f) ∧
      (∀ ch ∈ sep2, pySpace ch = true) ∧ f ≠ [] ∧ ∀ ch ∈ f, floatChar ch = true) :
    matchMoveTo (moveToFragment d1 sep1 d2 durdOpt) =
      some (digitsToNat d1, digitsToNat d2, Option.map Prod.snd durdOpt) := by
  obtain ⟨c2, d2t, rfl⟩ : ∃ c2 d2t, d2 = c2 :: d2t := by
    cases d2 with
    | nil => exact absurd rfl hd2
    | cons x xs => exact ⟨x, xs, rfl⟩
  have hc2 : Char.isDigit c2 = true := hd2d c2 (List.mem_cons_self _ _)
  rcases hdwf with hnone | ⟨sep2, f, hsome, hsep2, hf, hfc⟩
  · subst hnone
    have hfrag : moveToFragment d1 sep1 (c2 :: d2t) none =
        "pyautogui.moveTo(".data ++
          (d1 ++ (',' :: (sep1 ++ (c2 :: (d2t ++ [')']))))) := by
      simp [moveToFragment, List.append_assoc]
    rw [hfrag]
    simp only [matchMoveTo, consumeLit_append]
    obtain ⟨ht1, hdw1⟩ := takeWhile_append_eq d1
      (',' :: (sep1 ++ (c2 :: (d2t ++ [')']))))
      hd1d (fun c hc => by simp at hc; subst hc; decide)
    rw [ht1, hdw1, if_neg hd1]
    dsimp only
    rw [if_pos rfl]
    have hdw2 := (takeWhile_append_eq sep1 (c2 :: (d2t ++ [')'])) hsep1
      (fun ch hch => by
        simp at hch; subst hch
        exact digit_not_pySpace c2 hc2)).2
    rw [hdw2]
    rw [show (c2 :: (d2t ++ ([')'] : List Char))) = (c2 :: d2t) ++ [')'] from rfl]
    obtain ⟨ht3, hdw3⟩ := takeWhile_append_eq (c2 :: d2t) [')'] hd2d
      (fun ch hch => by simp at hch; subst hch; decide)
    rw [ht3, hdw3, if_neg (List.cons_ne_nil _ _)]
    dsimp only
    rw [if_pos rfl]
    rfl
  · subst hsome
    have hfrag : moveToFragment d1 sep1 (c2 :: d2t) (some (sep2, f)) =
        "pyautogui.moveTo(".data ++
          (d1 ++ (',' :: (sep1 ++ (c2 :: (d2t ++
            (',' :: (sep2 ++ ("duration=".data ++ (f ++ [')']))))))))) := by
      simp [moveToFragment, List.append_assoc]
    rw [hfrag]
    simp only [matchMoveTo, consumeLit_append]
    obtain ⟨ht1, hdw1⟩ := takeWhile_append_eq d1
      (',' :: (sep1 ++ (c2 :: (d2t ++
        (',' :: (sep2 ++ ("duration=".data ++ (f ++ [')']))))))))
      hd1d (fun c hc => by simp at hc; subst hc; decide)
    rw [ht1, hdw1, if_neg hd1]
    dsimp only
    rw [if_pos rfl]
    have hdw2 := (takeWhile_append_eq sep1
      (c2 :: (d2t ++ (',' :: (sep2 ++ ("duration=".data ++ (f ++ [')']))))))
      hsep1
      (fun ch hch => by
        simp at hch; subst hch
        exact digit_not_pySpace c2 hc2)).2
    rw [hdw2]
    rw [show (c2 :: (d2t ++ (',' ::
        (sep2 ++ ("duration=".data ++ (f ++ ([')'] : List Char))))))) =
      (c2 :: d2t) ++ (',' :: (sep2 ++ ("duration=".data ++ (f ++ [')']))))
      from rfl]
    obtain ⟨ht3, hdw3⟩ := takeWhile_append_eq (c2 :: d2t)
      (',' :: (sep2 ++ ("duration=".data ++ (f ++ [')'])))) hd2d
      (fun ch hch => by simp at hch; subst hch; decide)
    rw [ht3, hdw3, if_neg (List.cons_ne_nil _ _)]
    dsimp only
    rw [if_neg (by decide), if_pos rfl]
    have hdw4 := (takeWhile_append_eq sep2
      ("duration=".data ++ (f ++ [')'])) hsep2
      (fun ch hch => by
        rw [show ("duration=".data ++ (f ++ ([')'] : List Char))) =
          'd' :: ("uration=".data ++ (f ++ [')'])) from rfl] at hch
        simp at hch; subst hch; decide)).2
    rw [hdw4, consumeLit_append]
    dsimp only
    obtain ⟨c6, f6, rfl⟩ : ∃ c6 f6, f = c6 :: f6 := by
      cases f with
      | nil => exact absurd rfl hf
      | cons x xs => exact ⟨x, xs, rfl⟩
    rw [show ((c6 :: f6) ++ ([')'] : List Char)) = c6 :: (f6 ++ [')']) from rfl]
    rw [show (c6 :: (f6 ++ ([')'] : List Char))) = (c6 :: f6) ++ [')'] from rfl]
    obtain ⟨ht5, hdw5⟩ := takeWhile_append_eq (c6 :: f6) [')'] hfc
      (fun ch hch => by
        simp at hch; subst hch
        decide)
    rw [ht5, hdw5, if_neg (List.cons_ne_nil _ _)]
    dsimp only
    rw [if_pos rfl]
    rfl

theorem parse_single_command_moveTo (t : List Char) (userPrompt : String)
    (sid : Option String) (x y : Nat) (durTok : Option (List Char)) (q : ℚ)
    (hstrip : pyStripL t = t)
    (hstart : startsWithL t "pyautogui.moveTo".data = true)
    (hmatch : matchMoveTo t = some (x, y, durTok))
    (hq : durTok = none ∧ q = 1 / 10 ∨
      ∃ f, durTok = some f ∧ pyFloatVal f = some q) :
    parse_single_command (String.mk t) userPrompt sid =
      some (Command.mk
        { type := CommandType.MOUSE_MOVE, user_prompt := userPrompt,
          raw_response := String.mk t, screenshot_id := sid,
          data := { x := some (x : Int), y := some (y : Int),
                    duration := some q } } []) := by
  have hstart2 : startsWithL t
      ['p', 'y', 'a', 'u', 't', 'o', 'g', 'u', 'i', '.',
       'm', 'o', 'v', 'e', 'T', 'o'] = true := hstart
  rcases hq with ⟨hnone, hq1⟩ | ⟨f, hsome, hq1⟩
  · subst hnone; subst hq1
    simp only [parse_single_command]
    rw [hstrip, if_pos hstart2, hmatch]
  · subst hsome
    simp only [parse_single_command]
    rw [hstrip, if_pos hstart2, hmatch]
    dsimp only
    rw [hq1]

/-- **C4 counterexample.** A fragment in the spec's own interface
surface form, `moveTo(50, 100)` (the §6 prefixes are listed without
the `pyautogui.` qualifier), does not parse to a MouseMove at all: no
branch of `_parse_single_command` matches, and the top-level parse
falls back to Unknown. -/
theorem C4_counterexample_bare_moveTo :
    parse_single_command "moveTo(50, 100)" "u" none = none ∧
    (parse_text_response "moveTo(50, 100)" "u" none).type = CommandType.UNKNOWN ∧
    (parse_text_response "moveTo(50, 100)" "u" none).error_message =
      some "Could not parse command" := by
  refine ⟨rfl, rfl, rfl⟩

/-- **C4 (amended).** For every fragment of the surface form
`pyautogui.moveTo(<int>,<sp><int>[,<sp>duration=<float>])` — the
case-sensitive prefix the code actually requires is
`pyautogui.moveTo`, not the bare `moveTo` of the spec's interface
table — `parse` yields a MouseMove command whose `x` and `y` equal the
two integers and whose `duration` equals the given float, or `0.1`
when the duration argument is omitted. -/
theorem C4_amended_moveTo_parse (d1 sep1 d2 : List Char)
    (durdOpt : Option (List Char × List Char)) (q : ℚ)
    (userPrompt : String) (sid : Option String)
    (hd1 : d1 ≠ []) (hd1d : ∀ ch ∈ d1, ch.isDigit = true)
    (hsep1 : ∀ ch ∈ sep1, pySpace ch = true)
    (hd2 : d2 ≠ []) (hd2d : ∀ ch ∈ d2, ch.isDigit = true)
    (hdwf : durdOpt = none ∨ ∃ sep2 f, durdOpt = some (sep2, f) ∧
      (∀ ch ∈ sep2, pySpace ch = true) ∧ f ≠ [] ∧ ∀ ch ∈ f, floatChar ch = true)
    (hq : moveToDurVal durdOpt = some q) :
    parse_single_command (String.mk (moveToFragment d1 sep1 d2 durdOpt))
        userPrompt sid =
      some (Command.mk
        { type := CommandType.MOUSE_MOVE, user_prompt := userPrompt,
          raw_response := String.mk (moveToFragment d1 sep1 d2 durdOpt),
          screenshot_id := sid,
          data := { x := some (digitsToNat d1 : Int),
                    y := some (digitsToNat d2 : Int),
                    duration := some q } } []) := by
  have hmatch := matchMoveTo_fragment d1 sep1 d2 durdOpt hd1 hd1d hsep1 hd2 hd2d hdwf
  have hhead : (moveToFragment d1 sep1 d2 durdOpt).head? = some 'p' := by
    rcases durdOpt with _ | ⟨sep2, f⟩ <;> rfl
  have hlast : (moveToFragment d1 sep1 d2 durdOpt).getLast? = some ')' := by
    rcases durdOpt with _ | ⟨sep2, f⟩ <;> exact List.getLast?_concat _
  have hstrip : pyStripL (moveToFragment d1 sep1 d2 durdOpt) =
      moveToFragment d1 sep1 d2 durdOpt :=
    pyStripL_eq_self _
      (fun c hc => by
        rw [hhead] at hc; injection hc with hc; subst hc; decide)
      (fun c hc => by
        rw [hlast] at hc; injection hc with hc; subst hc; decide)
  have hstart : startsWithL (moveToFragment d1 sep1 d2 durdOpt)
      "pyautogui.moveTo".data = true := by
    have hA : ("pyautogui.moveTo(".data : List Char) =
        "pyautogui.moveTo".data ++ ['('] := by decide
    have hpre : ("pyautogui.moveTo".data : List Char) <+:
        "pyautogui.moveTo(".data := ⟨['('], hA.symm⟩
    have hAF : ("pyautogui.moveTo(".data : List Char) <+:
        moveToFragment d1 sep1 d2 durdOpt := by
      rcases durdOpt with _ | ⟨sep2, f⟩
      · refine ⟨d1 ++ (',' :: (sep1 ++ (d2 ++ [')']))), ?_⟩
        simp [moveToFragment, List.append_assoc]
      · refine ⟨d1 ++ (',' :: (sep1 ++ (d2 ++
          (',' :: (sep2 ++ ("duration=".data ++ (f ++ [')']))))))), ?_⟩
        simp [moveToFragment, List.append_assoc]
    simpa [startsWithL] using List.isPrefixOf_iff_prefix.mpr (hpre.trans hAF)
  have hq2 : Option.map Prod.snd durdOpt = none ∧ q = 1 / 10 ∨
      ∃ f, Option.map Prod.snd durdOpt = some f ∧ pyFloatVal f = some q := by
    rcases durdOpt with _ | ⟨sep2, f⟩
    · left
      refine ⟨rfl, ?_⟩
      have h := hq
      simp only [moveToDurVal, Option.some.injEq] at h
      exact h.symm
    · right
      refine ⟨f, rfl, ?_⟩
      simpa [moveToDurVal] using hq
  exact parse_single_command_moveTo _ userPrompt sid _ _ _ q hstrip hstart
    hmatch hq2

/-- Witness for C4 (amended): the spec's own test vector
`pyautogui.moveTo(50, 100, duration=0.1)` (spaces after the commas). -/
theorem C4_amended_moveTo_parse_witness :
    moveToDurVal (some (([' '] : List Char), ['0', '.', '1'])) = some (1 / 10) ∧
    parse_single_command
        (String.mk (moveToFragment ['5', '0'] [' '] ['1', '0', '0']
          (some ([' '], ['0', '.', '1'])))) "u" none =
      some (Command.mk
        { type := CommandType.MOUSE_MOVE, user_prompt := "u",
          raw_response := String.mk (moveToFragment ['5', '0'] [' ']
            ['1', '0', '0'] (some ([' '], ['0', '.', '1']))),
          screenshot_id := none,
          data := { x := some (digitsToNat ['5', '0'] : Int),
                    y := some (digitsToNat ['1', '0', '0'] : Int),
                    duration := some (1 / 10) } } []) := by
  have hsplit : splitOnCharL '.' ['0', '.', '1'] = [['0'], ['1']] := by decide
  have h0 : digitsToNat ['0'] = 0 := by decide
  have h1 : digitsToNat ['1'] = 1 := by decide
  have hdv : moveToDurVal (some (([' '] : List Char), ['0', '.', '1'])) =
      some (1 / 10) := by
    simp only [moveToDurVal, pyFloatVal, hsplit, h0, h1]
    norm_num
  exact ⟨hdv, C4_amended_moveTo_parse ['5', '0'] [' '] ['1', '0', '0']
    (some ([' '], ['0', '.', '1'])) (1 / 10) "u" none (by decide) (by decide)
    (by decide) (by decide) (by decide)
    (Or.inr ⟨[' '], ['0', '.', '1'], rfl, by decide, by decide, by decide⟩) hdv⟩

/-! ### C5: composite splitting -/

theorem splitOnCharL_no_sep (sep : Char) (l : List Char) (h : sep ∉ l) :
    splitOnCharL sep l = [l] := by
  induction l with
  | nil => rfl
  | cons c t ih =>
      have hc : c ≠ sep := fun e => h (by rw [e]; exact List.mem_cons_self _ _)
      have ht : sep ∉ t := fun m => h (List.mem_cons_of_mem _ m)
      simp only [splitOnCharL, ih ht, if_neg hc]

theorem splitOnCharL_append_sep (sep : Char) (a r : List Char) (ha : sep ∉ a) :
    splitOnCharL sep (a ++ sep :: r) = a :: splitOnCharL sep r := by
  induction a with
  | nil => simp [splitOnCharL]
  | cons c t ih =>
      have hc : c ≠ sep := fun e => ha (by rw [e]; exact List.mem_cons_self _ _)
      have ht : sep ∉ t := fun m => ha (List.mem_cons_of_mem _ m)
      simp only [List.cons_append, splitOnCharL, List.append_eq, ih ht, if_neg hc]

/-- `split` is a left inverse of joining fragments with the separator,
provided no fragment contains the separator. -/
theorem splitOnCharL_join (sep : Char) (ls : List (List Char)) (hne : ls ≠ [])
    (hmem : ∀ l ∈ ls, sep ∉ l) :
    splitOnCharL sep (joinWithChar sep ls) = ls := by
  induction ls with
  | nil => exact absurd rfl hne
  | cons a rest ih =>
      cases rest with
      | nil => exact splitOnCharL_no_sep sep a (hmem a (List.mem_cons_self _ _))
      | cons b rest2 =>
          rw [show joinWithChar sep (a :: b :: rest2) =
            a ++ sep :: joinWithChar sep (b :: rest2) from rfl]
          rw [splitOnCharL_append_sep sep a _ (hmem a (List.mem_cons_self _ _))]
          rw [ih (by simp) (fun l hl => hmem l (List.mem_cons_of_mem _ hl))]

/-- **C5 counterexample.** For `pyautogui.click();zzz` the unparseable
fragment `zzz` does not become an Unknown child at position 1 — it is
silently dropped, leaving a composite with a single MouseClick
child. -/
theorem C5_counterexample_unparseable_fragment_dropped :
    (parse_text_response "pyautogui.click();zzz" "u" none).type =
      CommandType.COMPOSITE ∧
    (parse_text_response "pyautogui.click();zzz" "u" none).sub_commands.length = 1 ∧
    (parse_text_response "pyautogui.click();zzz" "u" none).sub_commands.map
      Command.type = [CommandType.MOUSE_CLICK] := by
  refine ⟨rfl, rfl, rfl⟩

/-- **C5 (amended).** A multi-fragment raw text parses to a Composite
whose children are the per-fragment parse results in original order,
where a fragment matching none of the six grammar forms (or an empty
fragment) contributes *no* child (it is silently dropped, not turned
into an Unknown child); it does not abort parsing of its sibling
fragments. -/
theorem C5_amended_composite_split (frags : List (List Char))
    (userPrompt : String) (sid : Option String)
    (hmulti : 2 ≤ frags.length)
    (hnosep : ∀ l ∈ frags, ';' ∉ l)
    (hnotsent : pyStrip (String.mk (joinWithChar ';' frags)) ≠ errorSentinelText)
    (hnotprint : startsWithL (joinWithChar ';' frags)
      "print('An error occurred".data = false) :
    (parse_text_response (String.mk (joinWithChar ';' frags)) userPrompt sid).type =
      CommandType.COMPOSITE ∧
    (parse_text_response (String.mk (joinWithChar ';' frags))
        userPrompt sid).sub_commands =
      frags.filterMap (fun frag =>
        let sub := pyStripL frag
        if sub = [] then none
        else parse_single_command (String.mk sub) userPrompt sid) := by
  obtain ⟨a, b, rest, rfl⟩ : ∃ a b rest, frags = a :: b :: rest := by
    cases frags with
    | nil => simp at hmulti
    | cons a rest1 =>
        cases rest1 with
        | nil => simp at hmulti
        | cons b rest2 => exact ⟨a, b, rest2, rfl⟩
  have hcond : ¬(pyStrip (String.mk (joinWithChar ';' (a :: b :: rest))) =
      errorSentinelText ∨
      startsWithL (joinWithChar ';' (a :: b :: rest))
        "print('An error occurred".data = true) := by
    rintro (h | h)
    · exact hnotsent h
    · rw [hnotprint] at h
      exact absurd h (by decide)
  have hsmem : ';' ∈ joinWithChar ';' (a :: b :: rest) := by
    rw [show joinWithChar ';' (a :: b :: rest) =
      a ++ ';' :: joinWithChar ';' (b :: rest) from rfl]
    exact List.mem_append_right _ (List.mem_cons_self _ _)
  have hcont : (joinWithChar ';' (a :: b :: rest)).contains ';' = true :=
    List.elem_iff.mpr hsmem
  have hsplit := splitOnCharL_join ';' (a :: b :: rest) (by simp) hnosep
  constructor
  · simp only [parse_text_response]
    rw [if_neg hcond, if_pos hcont]
    rfl
  · simp only [parse_text_response]
    rw [if_neg hcond, if_pos hcont]
    show List.filterMap _ (splitOnCharL ';' (joinWithChar ';' (a :: b :: rest))) = _
    rw [hsplit]

/-- Witness for C5 (amended): `pyautogui.click();zzz`. -/
theorem C5_amended_composite_split_witness :
    2 ≤ (["pyautogui.click()".data, "zzz".data] : List (List Char)).length ∧
    ((parse_text_response
        (String.mk (joinWithChar ';' ["pyautogui.click()".data, "zzz".data]))
        "u" none).type = CommandType.COMPOSITE ∧
      (parse_text_response
          (String.mk (joinWithChar ';' ["pyautogui.click()".data, "zzz".data]))
          "u" none).sub_commands =
        (["pyautogui.click()".data, "zzz".data] : List (List Char)).filterMap
          (fun frag =>
            let sub := pyStripL frag
            if sub = [] then none
            else parse_single_command (String.mk sub) "u" none)) :=
  ⟨by decide,
   C5_amended_composite_split ["pyautogui.click()".data, "zzz".data] "u" none
     (by decide) (by decide) (by decide) (by decide)⟩

end GeminiPcControl
